import Mathlib

/-!
Verification development for the blackroad-os-api gateway.

This file gives a shallow embedding, in Lean, of the pure decision logic of
the gateway's upstream clients, middleware and route handlers, translated
directly from the Python sources under src/app.  Network I/O is modelled by
passing the outcome of the single HTTP attempt (timeout, transport error, or
a concrete response) as an explicit argument; JSON parsing outcomes are
likewise carried as explicit data on the modelled response.
-/

namespace BRApi

/-- Python `s.startswith(pat)` over the characters of the strings (defined
on the character lists so that concrete instances evaluate by rfl). -/
def strStartsWith (s pat : String) : Bool := pat.data.isPrefixOf s.data

/-- Python `s[n:]`: drop the first n characters. -/
def strDrop (s : String) (n : Nat) : String := ⟨s.data.drop n⟩

/-- Python `len(s)` in characters. -/
def strLen (s : String) : Nat := s.data.length

/-- Python `s.lower()` (ASCII case folding suffices for the header names
and content types involved). -/
def strLower (s : String) : String := ⟨s.data.map Char.toLower⟩

/-- Python `pat in s`: substring containment. -/
def strContains (s pat : String) : Bool :=
  (List.range (s.data.length + 1)).any (fun i => pat.data.isPrefixOf (s.data.drop i))

/-- JSON-like Python values as they flow through the gateway: None, bool,
int, str, list and dict (a dict is an association list of string keys). -/
inductive JValue where
  | null : JValue
  | bool : Bool → JValue
  | num : Int → JValue
  | str : String → JValue
  | arr : List JValue → JValue
  | obj : List (String × JValue) → JValue
deriving Repr

/-- Python truthiness of a JSON-like value: None, False, 0, "", [] and \x7b\x7d
are falsy, everything else is truthy. -/
def truthy : JValue → Bool
  | .null => false
  | .bool b => b
  | .num n => n != 0
  | .str s => s != ""
  | .arr xs => !xs.isEmpty
  | .obj kvs => !kvs.isEmpty

/-- Python `a or b` on JSON-like values: the first operand when truthy,
otherwise the second. -/
def pyOr (a b : JValue) : JValue := if truthy a then a else b

/-- Lookup of a key in a dict's association list (first occurrence). -/
def jlookup (kvs : List (String × JValue)) (k : String) : Option JValue :=
  (kvs.find? (fun kv => kv.1 == k)).map Prod.snd

/-- Python `d.get(k)`: the value stored under k, or None (modelled as null)
when the key is absent or the receiver is not a dict. -/
def jget : JValue → String → JValue
  | .obj kvs, k => (jlookup kvs k).getD .null
  | _, _ => .null

/-- `UpstreamError` from src/app/errors.py: source, HTTP status code, the
message stored as HTTPException detail, and a details mapping. -/
structure UpstreamErrorData where
  source : String
  status_code : Nat
  detail : String
  details : List (String × String)
deriving Repr, DecidableEq

/-- Default of the `status_code` parameter of `UpstreamError.__init__`
(src/app/errors.py line 9): 502. -/
def upstreamErrorDefaultStatus : Nat := 502

/-- `UpstreamError(source, status_code, message, details)` with every
argument explicit. -/
def mkUpstreamError (source : String) (status_code : Nat) (message : String)
    (details : List (String × String)) : UpstreamErrorData :=
  ⟨source, status_code, message, details⟩

/-- The data of an httpx response that the client code inspects: status,
content-type header, body text, and the outcome of `response.json()`
(`some v` when the body parses as JSON v, `none` when parsing raises). -/
structure HttpResponseModel where
  status : Nat
  contentType : String
  text : String
  jsonParse : Option JValue
deriving Repr

/-- Outcome of the single HTTP attempt made by a client call. -/
inductive HttpAttempt where
  | timeout : HttpAttempt
  | transportError : HttpAttempt
  | response : HttpResponseModel → HttpAttempt
deriving Repr

/-- Exceptions escaping `UpstreamClient.request` / `proxy_request`:
either an UpstreamError, or the `json.JSONDecodeError` raised by
`response.json()` — the latter is a ValueError, not an `httpx.HTTPError`,
so none of the except clauses in src/app/clients/upstream.py catch it. -/
inductive RequestFailure where
  | upstream : UpstreamErrorData → RequestFailure
  | jsonDecodeError : RequestFailure
deriving Repr

/-- httpx `response.is_success`: status in 200..299; `raise_for_status`
raises `HTTPStatusError` exactly when this is false. -/
def is2xx (status : Nat) : Bool := 200 ≤ status && status < 300

/-- `UpstreamClient.request` (src/app/clients/upstream.py lines 32-80),
with the HTTP attempt's outcome passed explicitly.  The timeout branch
(line 69) raises `UpstreamError(self.name, message=..., details=...)`
omitting `status_code`, so the default 502 applies. -/
def request_result (name : String) (base_url : Option String) (path : String)
    (attempt : HttpAttempt) : Except RequestFailure JValue :=
  match base_url with
  | none =>
      .error (.upstream (mkUpstreamError name 502 (name ++ " upstream not configured") []))
  | some b =>
      if b == "" then
        .error (.upstream (mkUpstreamError name 502 (name ++ " upstream not configured") []))
      else
        match attempt with
        | .timeout =>
            .error (.upstream (mkUpstreamError name upstreamErrorDefaultStatus
              (name ++ " upstream timeout") [("path", path)]))
        | .transportError =>
            .error (.upstream (mkUpstreamError name upstreamErrorDefaultStatus
              (name ++ " upstream request failed") [("path", path)]))
        | .response r =>
            if !(is2xx r.status) then
              .error (.upstream (mkUpstreamError name r.status
                (name ++ " upstream returned " ++ toString r.status)
                [("path", path), ("body", r.text)]))
            else if strStartsWith r.contentType "application/json" then
              match r.jsonParse with
              | some v => .ok v
              | none => .error .jsonDecodeError
            else
              .ok (.obj [("status_code", .num r.status), ("content", .str r.text),
                ("content_type", .str r.contentType)])

/-- `UpstreamClient.proxy_request` (src/app/clients/upstream.py lines
82-123): same failure classification as `request`, returning the raw
response on success.  The timeout branch (line 112) likewise omits
`status_code`, so the default 502 applies. -/
def proxy_request_result (name : String) (base_url : Option String) (path : String)
    (attempt : HttpAttempt) : Except RequestFailure HttpResponseModel :=
  match base_url with
  | none =>
      .error (.upstream (mkUpstreamError name 502 (name ++ " upstream not configured") []))
  | some b =>
      if b == "" then
        .error (.upstream (mkUpstreamError name 502 (name ++ " upstream not configured") []))
      else
        match attempt with
        | .timeout =>
            .error (.upstream (mkUpstreamError name upstreamErrorDefaultStatus
              (name ++ " upstream timeout") [("path", path)]))
        | .transportError =>
            .error (.upstream (mkUpstreamError name upstreamErrorDefaultStatus
              (name ++ " upstream request failed") [("path", path)]))
        | .response r =>
            if !(is2xx r.status) then
              .error (.upstream (mkUpstreamError name r.status
                (name ++ " upstream returned " ++ toString r.status)
                [("path", path), ("body", r.text)]))
            else
              .ok r

/-- The status code of the UpstreamError raised by a call, when it raised
one. -/
def raisedStatus {α : Type} : Except RequestFailure α → Option Nat
  | .error (.upstream e) => some e.status_code
  | _ => none

/-- Error envelope produced by `build_error_response` (src/app/errors.py
lines 15-26): the details and requestId fields are included only when
truthy. -/
structure ErrorEnvelope where
  code : JValue
  message : JValue
  details : Option JValue
  requestId : Option String
deriving Repr

/-- `build_error_response(code, message, request_id, details)`. -/
def build_error_response (code message : JValue) (request_id : Option String)
    (details : Option JValue) : ErrorEnvelope :=
  ⟨code, message,
    match details with
    | some d => if truthy d then some d else none
    | none => none,
    match request_id with
    | some r => if r != "" then some r else none
    | none => none⟩

/-- An exception reaching `ErrorHandlerMiddleware.dispatch`
(src/app/middleware/errors.py): an UpstreamError, some other HTTPException
(carrying its status and its detail value), or any other exception
(carrying `str(exc)`). -/
inductive CaughtException where
  | upstreamErr : UpstreamErrorData → CaughtException
  | httpErr : Nat → JValue → CaughtException
  | otherErr : String → CaughtException
deriving Repr

/-- Python `str` of the JSON-like values this development evaluates it on
(only the HTTPException branch with a non-dict detail uses it). -/
def pyStr : JValue → String
  | .null => "None"
  | .bool b => if b then "True" else "False"
  | .num n => toString n
  | .str s => s
  | .arr _ => ""
  | .obj _ => ""

/-- `ErrorHandlerMiddleware.dispatch` (src/app/middleware/errors.py lines
12-41), as the map from the caught exception and the request-scoped
request id to the response's HTTP status and envelope.  In the generic
branch (lines 34-41) the envelope message is str(exc) when non-empty,
falling back to "Internal server error". -/
def errorHandler_handle (exc : CaughtException) (request_id : Option String) :
    Nat × ErrorEnvelope :=
  match exc with
  | .upstreamErr e =>
      (e.status_code,
        build_error_response (.str "UPSTREAM_ERROR") (.str e.detail) request_id
          (some (.obj (("source", .str e.source) ::
            e.details.map (fun kv => (kv.1, .str kv.2))))))
  | .httpErr status d =>
      match d with
      | .obj kvs =>
          (status,
            build_error_response
              (pyOr (jget (.obj kvs) "code") (.str "BAD_REQUEST"))
              (pyOr (jget (.obj kvs) "message") (.str "Request error"))
              request_id (some (jget (.obj kvs) "details")))
      | _ =>
          (status,
            build_error_response (.str "BAD_REQUEST")
              (pyOr (.str (pyStr d)) (.str "Request error"))
              request_id none)
  | .otherErr msg =>
      (500,
        build_error_response (.str "INTERNAL_ERROR")
          (.str (if msg == "" then "Internal server error" else msg))
          request_id none)

/-- C1: the claim says every timeout in `UpstreamClient.request` /
`proxy_request` raises UpstreamError with status_code 504.  Evaluating the
embedded code at a timing-out attempt: both raise status_code 502 (the
`UpstreamError.__init__` default, since the raise sites omit status_code),
and 502 is not 504. -/
theorem c1_timeout_raises_502_not_504 :
    raisedStatus (request_result "core" (some "https://core.example.com")
        "/agents" .timeout) = some 502 ∧
    raisedStatus (proxy_request_result "agents" (some "https://agents.example.com")
        "/v1/x" .timeout) = some 502 ∧
    (502 : Nat) ≠ 504 :=
  ⟨rfl, rfl, by decide⟩

/-- C2: the claim says a 2xx JSON-content-type response whose body fails to
parse makes `UpstreamClient.request` raise UpstreamError 502, and no other
exception type escapes.  Evaluating the embedded code: the JSON decode
error escapes uncaught (it is a ValueError, not an httpx.HTTPError), which
is not an UpstreamError of any status; a plain transport failure does give
UpstreamError 502. -/
theorem c2_invalid_json_escapes_uncaught :
    request_result "core" (some "https://core.example.com") "/agents"
        (.response ⟨200, "application/json", "not json", none⟩) =
      .error .jsonDecodeError ∧
    (∀ e : UpstreamErrorData, RequestFailure.jsonDecodeError ≠ .upstream e) ∧
    raisedStatus (request_result "core" (some "https://core.example.com")
        "/agents" .transportError) = some 502 := by
  refine ⟨rfl, ?_, rfl⟩
  intro e h
  exact RequestFailure.noConfusion h

/-- C3 counterexample: the claim says the INTERNAL_ERROR envelope carries a
fixed generic message and never the caught exception's own message.  For a
RuntimeError whose str is "database password is hunter2", the embedded
handler puts exactly that string in the envelope message, which differs
from the generic strings. -/
theorem c3_counterexample_message_leaks :
    (errorHandler_handle (.otherErr "database password is hunter2")
        (some "req-1")).1 = 500 ∧
    (errorHandler_handle (.otherErr "database password is hunter2")
        (some "req-1")).2.message = .str "database password is hunter2" ∧
    "database password is hunter2" ≠ "An unexpected error occurred" :=
  ⟨rfl, rfl, by decide⟩

/-- C3 amended: an exception that is neither UpstreamError nor HTTPException
yields HTTP 500 with code INTERNAL_ERROR and no details, but the envelope
message equals str(exc) when that is non-empty (the exception's message is
echoed to the client), falling back to "Internal server error" when str(exc)
is empty. -/
theorem c3_amended_internal_error_shape (msg : String) (rid : Option String) :
    (errorHandler_handle (.otherErr msg) rid).1 = 500 ∧
    (errorHandler_handle (.otherErr msg) rid).2.code = .str "INTERNAL_ERROR" ∧
    (errorHandler_handle (.otherErr msg) rid).2.details = none ∧
    (msg ≠ "" → (errorHandler_handle (.otherErr msg) rid).2.message = .str msg) ∧
    (msg = "" → (errorHandler_handle (.otherErr msg) rid).2.message =
      .str "Internal server error") := by
  refine ⟨rfl, rfl, rfl, ?_, ?_⟩
  · intro h
    simp [errorHandler_handle, build_error_response, h]
  · intro h
    simp [errorHandler_handle, build_error_response, h]

/-- C3 amended, witness at a concrete exception message. -/
theorem c3_amended_witness :
    (errorHandler_handle (.otherErr "boom") (some "r")).1 = 500 ∧
    (errorHandler_handle (.otherErr "boom") (some "r")).2.code = .str "INTERNAL_ERROR" ∧
    (errorHandler_handle (.otherErr "boom") (some "r")).2.message = .str "boom" :=
  ⟨(c3_amended_internal_error_shape "boom" (some "r")).1,
   (c3_amended_internal_error_shape "boom" (some "r")).2.1,
   (c3_amended_internal_error_shape "boom" (some "r")).2.2.2.1 (by decide)⟩

/-- Result of `OperatorClient.enqueue_install`: the jobId value and the
operator base url, as returned on src/app/clients/operator_client.py
line 58. -/
structure InstallResult where
  jobId : JValue
  operatorUrl : String
deriving Repr

/-- Lines 54-58 of src/app/clients/operator_client.py: job_id is the
`or`-chain over body.get("jobId"), body.get("id"), body.get("job_id") when
the body is a dict (None otherwise), and the returned jobId is
`job_id or "pending"`. -/
def computeJobId (body : JValue) : JValue :=
  let job_id : JValue :=
    match body with
    | .obj kvs => pyOr (jget (.obj kvs) "jobId")
        (pyOr (jget (.obj kvs) "id") (jget (.obj kvs) "job_id"))
    | _ => .null
  pyOr job_id (.str "pending")

/-- `OperatorClient.enqueue_install` (src/app/clients/operator_client.py
lines 16-58) with the HTTP attempt's outcome passed explicitly.  The body
is parsed only when the upstream content-type starts with
application/json; otherwise it stays the empty dict. -/
def enqueue_install (base_url : Option String) (pack_id : String)
    (attempt : HttpAttempt) : Except UpstreamErrorData InstallResult :=
  match base_url with
  | none => .error (mkUpstreamError "operator" 502 "operator upstream not configured" [])
  | some b =>
      if b == "" then
        .error (mkUpstreamError "operator" 502 "operator upstream not configured" [])
      else
        match attempt with
        | .timeout => .error (mkUpstreamError "operator" 504 "operator upstream timeout" [])
        | .transportError =>
            .error (mkUpstreamError "operator" upstreamErrorDefaultStatus
              "operator upstream unavailable"
              [("url", b ++ "/packs/" ++ pack_id ++ "/install")])
        | .response r =>
            if !(is2xx r.status) then
              .error (mkUpstreamError "operator" r.status
                "operator upstream returned error" [("body", r.text)])
            else
              if strStartsWith r.contentType "application/json" then
                match r.jsonParse with
                | none =>
                    .error (mkUpstreamError "operator" 502
                      "operator upstream returned invalid JSON" [])
                | some body => .ok ⟨computeJobId body, b⟩
              else
                .ok ⟨computeJobId (.obj []), b⟩

/-- The jobId defined by the words of claim C6: the value of the first of
the keys jobId, id, job_id that is PRESENT in the body, and the literal
"pending" when none of them is present. -/
def claimJobIdField (body : JValue) : JValue :=
  match body with
  | .obj kvs =>
      (((jlookup kvs "jobId").orElse (fun _ => jlookup kvs "id")).orElse
        (fun _ => jlookup kvs "job_id")).getD (.str "pending")
  | _ => .str "pending"

/-- C6 counterexample: the claim says the returned jobId is the value of
the first present key among jobId, id, job_id.  For an upstream body in
which jobId is present with the empty-string value, the code skips it
(Python `or` skips falsy values) and returns "pending", while the claim
requires the empty string. -/
theorem c6_counterexample_falsy_job_id :
    enqueue_install (some "https://operator.example.com") "alpha"
        (.response ⟨200, "application/json", "", some (.obj [("jobId", .str "")])⟩) =
      .ok ⟨.str "pending", "https://operator.example.com"⟩ ∧
    claimJobIdField (.obj [("jobId", .str "")]) = .str "" ∧
    "" ≠ "pending" :=
  ⟨rfl, rfl, by decide⟩

/-- C6 amended: the returned jobId is the value of the first of the keys
jobId, id, job_id that is present with a TRUTHY value, and the literal
"pending" when none of them carries a truthy value; when the upstream
content-type does not indicate JSON the body is treated as the empty dict,
so a 2xx non-JSON response yields jobId "pending" rather than an error. -/
theorem pyOr_chain_eq_find (a b c : JValue) :
    pyOr (pyOr a (pyOr b c)) (.str "pending") =
      (([a, b, c].find? truthy).getD (.str "pending")) := by
  simp only [pyOr, List.find?]
  by_cases h1 : truthy a <;> by_cases h2 : truthy b <;> by_cases h3 : truthy c <;>
    simp [h1, h2, h3]

theorem c6_amended_job_id_first_truthy :
    (∀ body : JValue, computeJobId body =
      (([jget body "jobId", jget body "id", jget body "job_id"].find? truthy).getD
        (.str "pending"))) ∧
    (∀ (b pack_id : String) (r : HttpResponseModel), b ≠ "" →
      strStartsWith r.contentType "application/json" = false →
      is2xx r.status = true →
      enqueue_install (some b) pack_id (.response r) = .ok ⟨.str "pending", b⟩) := by
  constructor
  · intro body
    cases body with
    | obj kvs =>
        simpa only [computeJobId] using
          pyOr_chain_eq_find (jget (.obj kvs) "jobId") (jget (.obj kvs) "id")
            (jget (.obj kvs) "job_id")
    | null => simp [computeJobId, pyOr, truthy, jget, List.find?]
    | bool b => simp [computeJobId, pyOr, truthy, jget, List.find?]
    | num n => simp [computeJobId, pyOr, truthy, jget, List.find?]
    | str s => simp [computeJobId, pyOr, truthy, jget, List.find?]
    | arr xs => simp [computeJobId, pyOr, truthy, jget, List.find?]
  · intro b pack_id r hb hct hst
    simp only [enqueue_install]
    rw [if_neg (by simpa using hb)]
    simp [hct, hst, computeJobId, jget, jlookup, pyOr, truthy]

/-- C6 amended, witness: a concrete body whose id key carries the job id,
and a concrete 2xx text/plain response yielding jobId "pending". -/
theorem c6_amended_witness :
    computeJobId (.obj [("id", .str "job-7")]) =
      (([jget (.obj [("id", .str "job-7")]) "jobId",
         jget (.obj [("id", .str "job-7")]) "id",
         jget (.obj [("id", .str "job-7")]) "job_id"].find? truthy).getD
        (.str "pending")) ∧
    enqueue_install (some "https://operator.example.com") "alpha"
        (.response ⟨200, "text/plain", "ok", none⟩) =
      .ok ⟨.str "pending", "https://operator.example.com"⟩ :=
  ⟨c6_amended_job_id_first_truthy.1 (.obj [("id", .str "job-7")]),
   c6_amended_job_id_first_truthy.2 "https://operator.example.com" "alpha"
     ⟨200, "text/plain", "ok", none⟩ (by decide) (by decide) (by decide)⟩

/-- Body of the install route's response as the handler returns it
(src/app/generated/router.py lines 128-141): either the
`ErrorResponse(ok=False, error=...)` built by `_error` or a
`PackInstallResponse(ok=True, jobId=..., operatorUrl=...)`. -/
structure InstallRouteBody where
  ok : Bool
  errCode : Option String
  errMessage : Option String
  jobId : Option JValue
  operatorUrl : Option String
deriving Repr

/-- The install route `POST /v1/packs/id/install` at the handler level:
the decorator fixes `status_code=202`, and the handler returns a response
MODEL (never a Response object), so FastAPI serializes every returned body
with HTTP status 202.  The boolean records whether the operator upstream
was called.  An UpstreamError raised by the operator client propagates. -/
def install_pack_route (id : String) (base_url : Option String)
    (attempt : HttpAttempt) :
    Except UpstreamErrorData (Nat × InstallRouteBody × Bool) :=
  if id == "" then
    .ok (202, ⟨false, some "INVALID_PACK", some "Pack id is required", none, none⟩, false)
  else
    (enqueue_install base_url id attempt).map
      (fun r => (202, ⟨true, none, none, some r.jobId, some r.operatorUrl⟩, true))

/-- C4: the claim says an empty pack id yields HTTP status 400 with error
code INVALID_PACK and no upstream call.  Evaluating the embedded route at
id = "": the body does carry ok=false with code INVALID_PACK and the
operator client is not called, but the HTTP status is the route's fixed
202, not 400. -/
theorem c4_empty_id_gives_202_not_400 :
    install_pack_route "" (some "https://operator.example.com") .timeout =
      .ok (202, ⟨false, some "INVALID_PACK", some "Pack id is required", none, none⟩,
        false) ∧
    (202 : Nat) ≠ 400 :=
  ⟨rfl, by decide⟩

/-- The fixed pack namespace constant PACK_PREFIX from
src/app/clients/pack_index_client.py line 9 (renamed here). -/
def PACK_NS : String := "blackroad-os-pack-"

/-- Python exceptions the pack-index item loop can raise: AttributeError
from calling startswith on a truthy non-string name, TypeError from
iterating a non-iterable items value. -/
inductive PyExc where
  | attributeError : PyExc
  | typeError : PyExc
deriving Repr, DecidableEq

/-- A pack record as appended on src/app/clients/pack_index_client.py
lines 69-77. -/
structure Pack where
  id : String
  name : String
  version : JValue
  description : JValue
  source : JValue
deriving Repr

/-- Line 61 of src/app/clients/pack_index_client.py:
`name = item.get("name") or item.get("id")`. -/
def effectiveName (item : JValue) : JValue :=
  pyOr (jget item "name") (jget item "id")

/-- One iteration of the loop on lines 58-77 of
src/app/clients/pack_index_client.py: non-dict items are skipped; a falsy
name skips the item; a truthy non-string name raises AttributeError at
`name.startswith`; a string name is kept exactly when it starts with
PACK_PREFIX, with the prefix stripped to form the id. -/
def processItem (index_url : String) (item : JValue) : Except PyExc (Option Pack) :=
  match item with
  | .obj kvs =>
      let name := effectiveName (.obj kvs)
      let version := pyOr (jget (.obj kvs) "version")
        (pyOr (jget (.obj kvs) "tag") (.str "latest"))
      let description := jget (.obj kvs) "description"
      let source := pyOr (jget (.obj kvs) "source") (.str index_url)
      if !(truthy name) then .ok none
      else
        match name with
        | .str s =>
            if strStartsWith s PACK_NS then
              .ok (some ⟨strDrop s (strLen PACK_NS), s, version, description, source⟩)
            else .ok none
        | _ => .error .attributeError
  | _ => .ok none

/-- The whole loop, in item order; the first exception aborts the call. -/
def processItems (index_url : String) : List JValue → Except PyExc (List Pack)
  | [] => .ok []
  | item :: rest => do
      let p ← processItem index_url item
      let ps ← processItems index_url rest
      match p with
      | some pk => pure (pk :: ps)
      | none => pure ps

/-- Lines 49-55 of src/app/clients/pack_index_client.py: the items value
selected from the parsed payload (`packs` / `packages` / `items` chained
with `or` for a dict, the payload itself for a list, `[]` otherwise). -/
def selectItems (payload : JValue) : JValue :=
  match payload with
  | .obj kvs => pyOr (jget (.obj kvs) "packs")
      (pyOr (jget (.obj kvs) "packages") (pyOr (jget (.obj kvs) "items") (.arr [])))
  | .arr xs => .arr xs
  | _ => .arr []

/-- Python `for item in items`: iterating a list yields its elements, a
string its one-character substrings, a dict its keys; anything else raises
TypeError. -/
def pyIter : JValue → Except PyExc (List JValue)
  | .arr xs => .ok xs
  | .str s => .ok (s.data.map (fun c => .str ⟨[c]⟩))
  | .obj kvs => .ok (kvs.map (fun kv => .str kv.1))
  | _ => .error .typeError

/-- The post-parse stage of `PackIndexClient.list_packs`
(src/app/clients/pack_index_client.py lines 49-79), from the parsed JSON
payload to the list of pack records. -/
def list_packs_post (index_url : String) (payload : JValue) :
    Except PyExc (List Pack) := do
  processItems index_url (← pyIter (selectItems payload))

/-- The per-item mapping stated by claim C5: dict items whose name
(falling back to id) is a string starting with the pack namespace are
mapped to a record with the prefix stripped to form the id (version and
the other fields as the claim and the spec leave them: version defaulting
to "latest" when neither version nor tag carries a truthy value); every
other item maps to nothing. -/
def specPack (index_url : String) (item : JValue) : Option Pack :=
  match item with
  | .obj kvs =>
      match effectiveName (.obj kvs) with
      | .str s =>
          if strStartsWith s PACK_NS then
            some ⟨strDrop s (strLen PACK_NS), s,
              pyOr (jget (.obj kvs) "version")
                (pyOr (jget (.obj kvs) "tag") (.str "latest")),
              jget (.obj kvs) "description",
              pyOr (jget (.obj kvs) "source") (.str index_url)⟩
          else none
      | _ => none
  | _ => none

theorem strStartsWith_empty_pack_ns : strStartsWith "" PACK_NS = false := by
  decide

theorem processItem_ok_eq_spec (url : String) (item : JValue) (p : Option Pack)
    (h : processItem url item = .ok p) : p = specPack url item := by
  cases item with
  | obj kvs =>
      simp only [processItem] at h
      simp only [specPack]
      rcases hname : effectiveName (.obj kvs) with _ | b | n | s | xs | kvs2 <;>
        rw [hname] at h
      · simp only [truthy, Bool.not_false, if_pos] at h
        exact (Except.ok.inj h).symm
      · cases b with
        | false =>
            simp only [truthy, Bool.not_false, if_pos] at h
            exact (Except.ok.inj h).symm
        | true => simp only [truthy, Bool.not_true, if_neg] at h; cases h
      · by_cases hn : n = 0
        · subst hn
          simp only [truthy] at h
          norm_num at h
          exact h.symm
        · simp only [truthy] at h
          rw [if_neg (by simp [hn])] at h
          cases h
      · by_cases hs : s = ""
        · subst hs
          simp only [truthy] at h
          norm_num at h
          obtain rfl := h.symm
          simp [strStartsWith_empty_pack_ns]
        · simp only [truthy] at h
          rw [if_neg (by simp [hs])] at h
          by_cases hp : strStartsWith s PACK_NS
          · rw [if_pos hp] at h
            obtain rfl := (Except.ok.inj h).symm
            simp [hp]
          · rw [if_neg hp] at h
            obtain rfl := (Except.ok.inj h).symm
            simp [hp]
      · cases xs with
        | nil =>
            simp only [truthy, List.isEmpty_nil, Bool.not_false, if_pos] at h
            exact (Except.ok.inj h).symm
        | cons x xs =>
            simp only [truthy, List.isEmpty_cons, Bool.not_false, if_neg] at h
            cases h
      · cases kvs2 with
        | nil =>
            simp only [truthy, List.isEmpty_nil, Bool.not_false, if_pos] at h
            exact (Except.ok.inj h).symm
        | cons x xs =>
            simp only [truthy, List.isEmpty_cons, Bool.not_false, if_neg] at h
            cases h
  | null => exact (Except.ok.inj h).symm
  | bool b => exact (Except.ok.inj h).symm
  | num n => exact (Except.ok.inj h).symm
  | str s => exact (Except.ok.inj h).symm
  | arr xs => exact (Except.ok.inj h).symm

theorem processItems_ok_eq_filterMap (url : String) :
    ∀ (items : List JValue) (ps : List Pack),
      processItems url items = .ok ps → ps = items.filterMap (specPack url) := by
  intro items
  induction items with
  | nil => intro ps h; simpa [processItems] using (Except.ok.inj h).symm
  | cons item rest ih =>
      intro ps h
      simp only [processItems, bind, Except.bind] at h
      cases hp : processItem url item with
      | error e => rw [hp] at h; cases h
      | ok p =>
          rw [hp] at h
          cases hr : processItems url rest with
          | error e => rw [hr] at h; cases h
          | ok ps' =>
              rw [hr] at h
              have hps' := ih ps' hr
              have hspec := processItem_ok_eq_spec url item p hp
              rw [List.filterMap_cons]
              cases p with
              | some pk =>
                  simp only [pure, Except.pure] at h
                  rw [← hspec, ← hps']
                  exact (Except.ok.inj h).symm
              | none =>
                  simp only [pure, Except.pure] at h
                  rw [← hspec, ← hps']
                  exact (Except.ok.inj h).symm

/-- C5: for every successful run of the pack-index item loop, the returned
packs are exactly the image under the claim's per-item mapping of the
selected items, in order (dict items whose string name, falling back to
id, starts with the pack namespace, mapped to a record with the prefix
stripped to form the id), and items whose name is a string lacking the
prefix are dropped without raising. -/
theorem c5_list_packs_filters_by_pack_ns :
    (∀ (url : String) (payload : JValue) (items : List JValue) (ps : List Pack),
      pyIter (selectItems payload) = .ok items →
      list_packs_post url payload = .ok ps →
      ps = items.filterMap (specPack url)) ∧
    (∀ (url : String) (item : JValue) (s : String),
      effectiveName item = .str s → strStartsWith s PACK_NS = false →
      processItem url item = .ok none) := by
  constructor
  · intro url payload items ps hiter hpost
    simp only [list_packs_post, bind, Except.bind] at hpost
    rw [hiter] at hpost
    exact processItems_ok_eq_filterMap url items ps hpost
  · intro url item s hname hpfx
    cases item with
    | obj kvs =>
        simp only [processItem, hname]
        by_cases hs : s = ""
        · subst hs; simp [truthy]
        · simp only [truthy]
          rw [if_neg (by simp [hs])]
          rw [hpfx]
          simp
    | null => simp [effectiveName, jget, pyOr, truthy] at hname
    | bool b => simp [effectiveName, jget, pyOr, truthy] at hname
    | num n => simp [effectiveName, jget, pyOr, truthy] at hname
    | str s2 => simp [effectiveName, jget, pyOr, truthy] at hname
    | arr xs => simp [effectiveName, jget, pyOr, truthy] at hname

/-- C5 witness at the claim's concrete input: of the two items only
blackroad-os-pack-alpha survives, as the pack with id "alpha". -/
theorem c5_witness_alpha :
    list_packs_post "https://packs.example.com"
        (.obj [("packs", .arr [.obj [("name", .str "blackroad-os-pack-alpha")],
          .obj [("name", .str "other-pack")]])]) =
      .ok [⟨"alpha", "blackroad-os-pack-alpha", .str "latest", .null,
        .str "https://packs.example.com"⟩] ∧
    [(⟨"alpha", "blackroad-os-pack-alpha", .str "latest", .null,
        .str "https://packs.example.com"⟩ : Pack)] =
      ([JValue.obj [("name", .str "blackroad-os-pack-alpha")],
        .obj [("name", .str "other-pack")]].filterMap
          (specPack "https://packs.example.com")) :=
  ⟨rfl, c5_list_packs_filters_by_pack_ns.1 "https://packs.example.com"
    (.obj [("packs", .arr [.obj [("name", .str "blackroad-os-pack-alpha")],
      .obj [("name", .str "other-pack")]])])
    [.obj [("name", .str "blackroad-os-pack-alpha")],
      .obj [("name", .str "other-pack")]]
    [⟨"alpha", "blackroad-os-pack-alpha", .str "latest", .null,
      .str "https://packs.example.com"⟩] rfl rfl⟩

/-- The HTTPException raised by `api_key_auth` on every failure
(src/app/middleware/auth.py lines 20-24 and 33-36). -/
structure HttpExcData where
  status : Nat
  code : String
  message : String
deriving Repr, DecidableEq

def unauthorizedExc : HttpExcData :=
  ⟨401, "UNAUTHORIZED", "Invalid or missing API key."⟩

/-- Value-level behaviour of `secrets.compare_digest` on equal-typed
strings: true exactly on equality (the constant-time execution property
itself is a timing property outside the embedding). -/
def compareDigest (a b : String) : Bool := a == b

/-- Python truthiness of an optional string (None and "" are falsy). -/
def truthyOptStr : Option String → Bool
  | none => false
  | some s => s != ""

/-- `api_key_auth` (src/app/middleware/auth.py lines 15-36) on the two
extracted header values and the configured key list. -/
def api_key_auth (x_api_key authorization : Option String)
    (api_keys : List String) : Except HttpExcData Bool :=
  if api_keys.isEmpty then .error unauthorizedExc
  else
    let provided_key : Option String :=
      if !(truthyOptStr x_api_key) && truthyOptStr authorization
          && strStartsWith (authorization.getD "") "Bearer " then
        some (strDrop (authorization.getD "") 7)
      else x_api_key
    if truthyOptStr provided_key
        && api_keys.any (fun key => compareDigest (provided_key.getD "") key) then
      .ok true
    else .error unauthorizedExc

/-- Case-insensitive HTTP header lookup (first match), as FastAPI resolves
`Header(None, alias=...)` parameters. -/
def headerLookup (headers : List (String × String)) (nm : String) : Option String :=
  (headers.find? (fun kv => strLower kv.1 == strLower nm)).map Prod.snd

/-- `api_key_auth` at the HTTP level: FastAPI binds the parameter aliased
"x-api-key" (src/app/middleware/auth.py line 16) and the authorization
header. -/
def api_key_auth_http (headers : List (String × String))
    (api_keys : List String) : Except HttpExcData Bool :=
  api_key_auth (headerLookup headers "x-api-key")
    (headerLookup headers "authorization") api_keys

/-- C7: the claim says the key is accepted via the X-BR-KEY header.
Evaluating the embedded auth dependency: a request carrying the configured
key in X-BR-KEY is rejected with the 401 UNAUTHORIZED exception, because
the code only reads the x-api-key header (with a Bearer Authorization
fallback), under which the same key is accepted. -/
theorem c7_br_key_header_rejected :
    api_key_auth_http [("X-BR-KEY", "secret")] ["secret"] = .error unauthorizedExc ∧
    api_key_auth_http [("x-api-key", "secret")] ["secret"] = .ok true ∧
    api_key_auth_http [("Authorization", "Bearer secret")] ["secret"] = .ok true ∧
    api_key_auth_http [] ["secret"] = .error unauthorizedExc :=
  ⟨rfl, rfl, rfl, rfl⟩

/-- Python `s.split(c)` over character lists. -/
def splitOnChar (c : Char) : List Char → List (List Char)
  | [] => [[]]
  | x :: xs =>
      match splitOnChar c xs with
      | [] => [[]]
      | g :: gs => if x == c then [] :: g :: gs else (x :: g) :: gs

/-- Python `s.split(",")` (always non-empty; "" splits to [""]). -/
def pySplit (s : String) (c : Char) : List String :=
  (splitOnChar c s.data).map (fun l => ⟨l⟩)

/-- Python `s.strip()`: surrounding whitespace removed. -/
def strTrim (s : String) : String :=
  ⟨((s.data.dropWhile Char.isWhitespace).reverse.dropWhile Char.isWhitespace).reverse⟩

/-- `Settings.split_keys` (src/app/config.py lines 42-49) on the raw
API_KEYS environment value: None and "" give []; otherwise the
comma-separated entries are stripped and empty entries dropped. -/
def split_keys (value : Option String) : List String :=
  match value with
  | none => []
  | some s =>
      if s == "" then []
      else ((pySplit s ',').map strTrim).filter (fun k => k != "")

/-- `Settings.allowed_api_keys` (src/app/config.py lines 80-87): the
parsed api_keys, then public_api_key when truthy, with empties removed
while preserving order. -/
def allowed_api_keys (api_keys : List String) (public_api_key : Option String) :
    List String :=
  (api_keys ++
    (match public_api_key with
     | some k => if k != "" then [k] else []
     | none => [])).filter (fun k => k != "")

/-- The full configured allow-list from the two environment values. -/
def allowedOf (api_keys_env public_api_key_env : Option String) : List String :=
  allowed_api_keys (split_keys api_keys_env) public_api_key_env

/-- The allow-list described by claim C10's words: the comma-separated
API_KEYS entries with surrounding whitespace trimmed and empty entries
removed, in order, followed by PUBLIC_API_KEY when set and non-empty. -/
def specAllowedKeys (api_keys_env public_api_key_env : Option String) : List String :=
  ((pySplit (api_keys_env.getD "") ',').map strTrim).filter (fun k => k != "") ++
    (match public_api_key_env with
     | some k => if k != "" then [k] else []
     | none => [])

/-- C10: the configured allow-list equals the claim's description, an
API_KEYS value of only commas and whitespace with no PUBLIC_API_KEY
yields the empty allow-list, and under an empty allow-list the auth
dependency rejects every request with the 401 UNAUTHORIZED exception. -/
theorem c10_allowed_keys_spec :
    (∀ (v pub : Option String), allowedOf v pub = specAllowedKeys v pub) ∧
    allowedOf (some " ,  ,\t,") none = [] ∧
    (∀ (x a : Option String), api_key_auth x a [] = .error unauthorizedExc) := by
  refine ⟨?_, rfl, fun _ _ => rfl⟩
  intro v pub
  have hpub : (match pub with
      | some k => if k != "" then [k] else []
      | none => ([] : List String)).filter (fun k => k != "") =
        (match pub with
         | some k => if k != "" then [k] else []
         | none => []) := by
    cases pub with
    | none => rfl
    | some k =>
        by_cases hk : k = ""
        · simp [hk]
        · simp [hk]
  have hidem : ∀ l : List String,
      (l.filter (fun k => k != "")).filter (fun k => k != "") =
        l.filter (fun k => k != "") := by
    intro l
    rw [List.filter_filter]
    simp
  cases v with
  | none =>
      simp only [allowedOf, allowed_api_keys, split_keys, specAllowedKeys,
        List.filter_append, hpub, List.nil_append, List.filter_nil, Option.getD]
      rfl
  | some s =>
      by_cases hs : s = ""
      · subst hs
        simp only [allowedOf, allowed_api_keys, split_keys, specAllowedKeys,
          List.filter_append, hpub, Option.getD]
        rfl
      · simp only [allowedOf, allowed_api_keys, split_keys, specAllowedKeys,
          List.filter_append, hpub, Option.getD]
        rw [if_neg (by simp [hs])]
        rw [hidem]

/-- A middleware-level response: status, headers, and the requestId field
of the body when the body is an error envelope. -/
structure MwResponse where
  status : Nat
  headers : List (String × String)
  bodyRequestId : Option String
deriving Repr

/-- Starlette `response.headers[k] = v`: existing entries for the key are
replaced (case-insensitively) and the pair is appended. -/
def setHeaderList (hs : List (String × String)) (k v : String) :
    List (String × String) :=
  hs.filter (fun kv => strLower kv.1 != strLower k) ++ [(k, v)]

def setRespHeader (r : MwResponse) (k v : String) : MwResponse :=
  ⟨r.status, setHeaderList r.headers k v, r.bodyRequestId⟩

/-- Line 16 of src/app/middleware/request_id.py:
`request.headers.get("X-Request-ID") or str(uuid.uuid4())` — the supplied
header when present and non-empty, otherwise the freshly generated id. -/
def effectiveRequestId (reqHeaders : List (String × String)) (fresh : String) :
    String :=
  match headerLookup reqHeaders "x-request-id" with
  | some v => if v != "" then v else fresh
  | none => fresh

/-- `RequestIdMiddleware.dispatch` (src/app/middleware/request_id.py lines
14-21) around an inner pipeline outcome: the request id is stored in
request state (returned first), and the response header is set only when
the inner pipeline returns a response — an exception propagates through
unchanged. -/
def requestId_dispatch (reqHeaders : List (String × String)) (fresh : String)
    (inner : Except CaughtException MwResponse) :
    String × Except CaughtException MwResponse :=
  let request_id := effectiveRequestId reqHeaders fresh
  (request_id, inner.map (fun r => setRespHeader r "X-Request-ID" request_id))

/-- The JSONResponse built by `ErrorHandlerMiddleware.dispatch`: the
envelope's status and requestId, with only the JSON content-type header
(no X-Request-ID header is set on it). -/
def errorHandler_response (exc : CaughtException) (request_id : Option String) :
    MwResponse :=
  let p := errorHandler_handle exc request_id
  ⟨p.1, [("content-type", "application/json")], p.2.requestId⟩

/-- The outer middleware pair as registered in src/app/main.py lines 54-55
(the ErrorHandlerMiddleware is added last, hence runs outermost, wrapping
RequestIdMiddleware): request-id assignment inside, error handling
outside, with the error handler reading the request id already stored in
request state. -/
def app_pipeline (reqHeaders : List (String × String)) (fresh : String)
    (inner : Except CaughtException MwResponse) : MwResponse :=
  match requestId_dispatch reqHeaders fresh inner with
  | (_, .ok r) => r
  | (rid, .error exc) => errorHandler_response exc (some rid)

theorem headerLookup_set_request_id (hs : List (String × String)) (v : String) :
    headerLookup (setHeaderList hs "X-Request-ID" v) "x-request-id" = some v := by
  simp only [headerLookup, setHeaderList]
  rw [List.find?_append]
  have hnone : (hs.filter
      (fun kv => strLower kv.1 != strLower "X-Request-ID")).find?
      (fun kv => strLower kv.1 == strLower "x-request-id") = none := by
    rw [List.find?_eq_none]
    intro kv hkv
    rw [List.mem_filter] at hkv
    have h2 := hkv.2
    rw [show strLower "X-Request-ID" = "x-request-id" from rfl] at h2
    rw [show strLower "x-request-id" = "x-request-id" from rfl]
    simpa using h2
  rw [hnone]
  rfl

/-- C8 counterexample: the claim says a supplied X-Request-ID value is
echoed unchanged on every response, including error responses produced by
the outer error handler.  Supplying the empty value yields the freshly
generated id instead, and a response synthesized by the outer error
handler (the request-id middleware never resumed) carries no X-Request-ID
header at all even though "abc" was supplied. -/
theorem c8_counterexample_echo_fails :
    headerLookup (app_pipeline [("X-Request-ID", "")] "generated-1"
        (.ok ⟨200, [], none⟩)).headers "x-request-id" = some "generated-1" ∧
    "generated-1" ≠ "" ∧
    headerLookup (app_pipeline [("X-Request-ID", "abc")] "generated-2"
        (.error (.otherErr "boom"))).headers "x-request-id" = none :=
  ⟨rfl, by decide, rfl⟩

/-- C8 amended: when the inner pipeline returns a response, it carries
X-Request-ID equal to the supplied header value when that is non-empty and
a freshly generated id otherwise; when an exception propagates to the
outer error handler, the synthesized error response carries no
X-Request-ID header, but its envelope body carries the id as requestId
(when non-empty). -/
theorem c8_amended_request_id :
    (∀ (reqHeaders : List (String × String)) (fresh : String) (r : MwResponse),
      headerLookup (app_pipeline reqHeaders fresh (.ok r)).headers "x-request-id" =
        some (effectiveRequestId reqHeaders fresh)) ∧
    (∀ (reqHeaders : List (String × String)) (fresh : String)
        (exc : CaughtException),
      headerLookup (app_pipeline reqHeaders fresh (.error exc)).headers
          "x-request-id" = none ∧
      (app_pipeline reqHeaders fresh (.error exc)).bodyRequestId =
        (if effectiveRequestId reqHeaders fresh != "" then
          some (effectiveRequestId reqHeaders fresh) else none)) ∧
    (∀ (reqHeaders : List (String × String)) (fresh v : String),
      headerLookup reqHeaders "x-request-id" = some v → v ≠ "" →
      effectiveRequestId reqHeaders fresh = v) := by
  refine ⟨?_, ?_, ?_⟩
  · intro reqHeaders fresh r
    simp only [app_pipeline, requestId_dispatch, Except.map, setRespHeader]
    exact headerLookup_set_request_id r.headers (effectiveRequestId reqHeaders fresh)
  · intro reqHeaders fresh exc
    constructor
    · rfl
    · simp only [app_pipeline, requestId_dispatch, Except.map, errorHandler_response]
      cases exc with
      | upstreamErr e => rfl
      | httpErr st d => cases d <;> rfl
      | otherErr m => rfl
  · intro reqHeaders fresh v h hv
    simp [effectiveRequestId, h, hv]

/-- C8 amended, witness at concrete requests: a supplied non-empty id is
echoed on a normal response and appears as the envelope requestId when the
handler throws. -/
theorem c8_amended_witness :
    headerLookup (app_pipeline [("X-Request-ID", "abc")] "gen"
        (.ok ⟨200, [], none⟩)).headers "x-request-id" =
      some (effectiveRequestId [("X-Request-ID", "abc")] "gen") ∧
    effectiveRequestId [("X-Request-ID", "abc")] "gen" = "abc" ∧
    (app_pipeline [("X-Request-ID", "abc")] "gen"
        (.error (.otherErr "boom"))).bodyRequestId =
      (if effectiveRequestId [("X-Request-ID", "abc")] "gen" != "" then
        some (effectiveRequestId [("X-Request-ID", "abc")] "gen") else none) :=
  ⟨c8_amended_request_id.1 [("X-Request-ID", "abc")] "gen" ⟨200, [], none⟩,
   c8_amended_request_id.2.2 [("X-Request-ID", "abc")] "gen" "abc" rfl (by decide),
   (c8_amended_request_id.2.1 [("X-Request-ID", "abc")] "gen" (.otherErr "boom")).2⟩

/-- The hop-by-hop header set HOP_BY_HOP_HEADERS from
src/app/routes/v1/shared.py lines 10-22. -/
def hopByHopHeaders : List String :=
  ["host", "content-length", "accept-encoding", "connection", "keep-alive",
   "proxy-authenticate", "proxy-authorization", "te", "trailers",
   "transfer-encoding", "upgrade"]

/-- The ProxyPayload dataclass of src/app/routes/v1/shared.py lines 25-31;
the raw body is modelled as its decoded text. -/
structure ProxyPayload where
  params : List (String × String)
  headers : List (String × String)
  body : Option String
  json : Option JValue
deriving Repr

/-- `extract_proxy_payload` (src/app/routes/v1/shared.py lines 33-56) with
the outcome of `json.loads` on the body passed explicitly (`none` when
parsing or decoding raises).  The JSON branch runs only when the raw body
is non-empty AND the content-type contains application/json; a parse
failure leaves the raw body in place. -/
def extract_proxy_payload (params reqHeaders : List (String × String))
    (rawBody : String) (parse : Option JValue) : ProxyPayload :=
  let content_type := (headerLookup reqHeaders "content-type").getD ""
  let bj : Option String × Option JValue :=
    if rawBody != "" && strContains (strLower content_type) "application/json" then
      match parse with
      | some v => (none, some v)
      | none => (some rawBody, none)
    else (if rawBody != "" then some rawBody else none, none)
  ⟨params,
   reqHeaders.filter (fun kv => !(hopByHopHeaders.contains (strLower kv.1))),
   bj.1, bj.2⟩

/-- C9 counterexample: the claim says the constructed ProxyPayload
populates exactly one of body and json.  For a request with an empty body
(e.g. any proxied GET), neither is populated. -/
theorem c9_counterexample_empty_body :
    ((extract_proxy_payload [] [("content-type", "application/json")] "" none).body.isSome
      || (extract_proxy_payload [] [("content-type", "application/json")]
        "" none).json.isSome) = false :=
  rfl

/-- C9 amended: at most one of body and json is populated, and exactly one
when the raw body is non-empty; json is set exactly when the body is
non-empty with a JSON content-type and parses as JSON; body is set exactly
when the body is non-empty and the JSON branch does not apply; hop-by-hop
headers are absent from the payload's headers. -/
theorem c9_amended_proxy_payload :
    ∀ (params reqHeaders : List (String × String)) (rawBody : String)
      (parse : Option JValue),
      (¬((extract_proxy_payload params reqHeaders rawBody parse).body.isSome = true ∧
        (extract_proxy_payload params reqHeaders rawBody parse).json.isSome = true)) ∧
      ((extract_proxy_payload params reqHeaders rawBody parse).json.isSome = true ↔
        rawBody ≠ "" ∧
        strContains (strLower ((headerLookup reqHeaders "content-type").getD ""))
          "application/json" = true ∧ parse.isSome = true) ∧
      ((extract_proxy_payload params reqHeaders rawBody parse).body.isSome = true ↔
        rawBody ≠ "" ∧
        ¬(strContains (strLower ((headerLookup reqHeaders "content-type").getD ""))
          "application/json" = true ∧ parse.isSome = true)) ∧
      (∀ kv, kv ∈ (extract_proxy_payload params reqHeaders rawBody parse).headers →
        hopByHopHeaders.contains (strLower kv.1) = false) := by
  intro params reqHeaders rawBody parse
  refine ⟨?_, ?_, ?_, ?_⟩
  · by_cases hb : rawBody = "" <;>
      by_cases hct : strContains
        (strLower ((headerLookup reqHeaders "content-type").getD ""))
        "application/json" = true <;>
      cases parse <;>
      simp [extract_proxy_payload, hb, hct]
  · by_cases hb : rawBody = "" <;>
      by_cases hct : strContains
        (strLower ((headerLookup reqHeaders "content-type").getD ""))
        "application/json" = true <;>
      cases parse <;>
      simp [extract_proxy_payload, hb, hct]
  · by_cases hb : rawBody = "" <;>
      by_cases hct : strContains
        (strLower ((headerLookup reqHeaders "content-type").getD ""))
        "application/json" = true <;>
      cases parse <;>
      simp [extract_proxy_payload, hb, hct]
  · intro kv hkv
    simp only [extract_proxy_payload, List.mem_filter] at hkv
    simpa using hkv.2

/-- C9 amended, witness at a concrete JSON request and at the hop-by-hop
header host. -/
theorem c9_amended_witness :
    ((extract_proxy_payload [] [("Content-Type", "application/json"), ("Host", "h")]
        "{}" (some (.obj []))).json.isSome = true ↔
      ("{}" : String) ≠ "" ∧
      strContains (strLower ((headerLookup
        [("Content-Type", "application/json"), ("Host", "h")]
        "content-type").getD "")) "application/json" = true ∧
      (some (JValue.obj [])).isSome = true) ∧
    (∀ kv, kv ∈ (extract_proxy_payload []
        [("Content-Type", "application/json"), ("Host", "h")] "{}"
        (some (.obj []))).headers →
      hopByHopHeaders.contains (strLower kv.1) = false) :=
  ⟨(c9_amended_proxy_payload [] [("Content-Type", "application/json"), ("Host", "h")]
      "{}" (some (.obj []))).2.1,
   (c9_amended_proxy_payload [] [("Content-Type", "application/json"), ("Host", "h")]
      "{}" (some (.obj []))).2.2.2⟩

end BRApi
